import Mathlib

/-
Verification of the RaydaHelpdesk decision pipeline.

Shallow embedding of the core components of the repository:
  src/helpdesk/core/knowledge_retriever.py  (LLMKnowledgeRetriever)
  src/helpdesk/core/classifier.py           (LLMRequestClassifier)
  src/helpdesk/core/escalation_logic.py     (EscalationEngine)
  src/helpdesk/core/system.py               (HelpDeskSystem.process_request)
  src/helpdesk/models/models.py             (pydantic data models)
  src/helpdesk/utils/config.py              (Config constants)

External calls (the LLM completion service, the embedding service, file
reads) are modelled by explicit parameters: an `Except String String` for a
completion call that may raise, a `FileOutcome` for a configuration file
read.  Python floats are modelled as rationals; Python lists/dicts as Lean
lists (dict iteration order = insertion order, as in CPython).
-/

/-! ### Python string primitives -/

/-- Python `needle in hay` (substring containment; the empty needle is
contained in everything). -/
def strContains (hay needle : String) : Bool :=
  (List.range (hay.toList.length + 1)).any
    (fun i => needle.toList.isPrefixOf (hay.toList.drop i))

/-- Python `str.lower()` (per character; the program only lowercases
ASCII request/keyword text). -/
def pyLower (s : String) : String :=
  String.mk (s.toList.map Char.toLower)

/-- Worker for `pySplitWs`: accumulate the current word (reversed) while
scanning the characters. -/
def splitWsGo : List Char → List Char → List String
  | [], acc => if acc.isEmpty then [] else [String.mk acc.reverse]
  | c :: rest, acc =>
    if c.isWhitespace then
      if acc.isEmpty then splitWsGo rest []
      else String.mk acc.reverse :: splitWsGo rest []
    else splitWsGo rest (c :: acc)

/-- Python `str.split()` with no argument: split on runs of whitespace,
discarding empty tokens. -/
def pySplitWs (s : String) : List String :=
  splitWsGo s.toList []

/-- Python `str.strip()`: drop leading and trailing whitespace. -/
def pyStrip (s : String) : String :=
  String.mk (((s.toList.dropWhile Char.isWhitespace).reverse.dropWhile
    Char.isWhitespace).reverse)

/-- Value of a list of decimal digit characters. -/
def digitsToNat (l : List Char) : Nat :=
  l.foldl (fun a c => a * 10 + (c.toNat - 48)) 0

/-- Python `float(s)` restricted to the plain decimal grammar
(optional sign, digits, at most one point); scientific notation and the
inf/nan spellings are outside the inputs this program feeds it and are
mapped to `none` (a parse failure) like every other malformed reply. -/
def parseFloat (s : String) : Option ℚ :=
  let cs := s.toList
  let signed : ℚ × List Char :=
    match cs with
    | '-' :: rest => (-1, rest)
    | '+' :: rest => (1, rest)
    | _ => (1, cs)
  let intPart := signed.2.takeWhile Char.isDigit
  let rest := signed.2.dropWhile Char.isDigit
  match rest with
  | [] => if intPart.isEmpty then none else some (signed.1 * (digitsToNat intPart : ℚ))
  | '.' :: fracPart =>
    if fracPart.all Char.isDigit && (!intPart.isEmpty || !fracPart.isEmpty) then
      some (signed.1 * ((digitsToNat intPart : ℚ) +
        (digitsToNat fracPart : ℚ) / (10 ^ fracPart.length : ℚ)))
    else none
  | _ => none

/-- Python `re.findall` of one-or-more-digit runs, each converted by `int`:
collect the maximal runs of decimal digits in the string as numbers. -/
def extractNumbersGo : List Char → Option Nat → List Nat
  | [], none => []
  | [], some n => [n]
  | c :: rest, cur =>
    if c.isDigit then
      extractNumbersGo rest (some ((cur.getD 0) * 10 + (c.toNat - 48)))
    else
      match cur with
      | none => extractNumbersGo rest none
      | some n => n :: extractNumbersGo rest none

/-- All maximal digit runs of a string, as numbers, left to right. -/
def extractNumbers (s : String) : List Nat :=
  extractNumbersGo s.toList none

/-- Python `"{:.2f}".format(q)`: fixed two-decimal rendering (half-up
rounding stands in for the float formatting; no claim depends on the exact
digits of this string). -/
def fmt2 (q : ℚ) : String :=
  let n : Int := ⌊q * 100 + 1 / 2⌋
  let whole := n / 100
  let frac := (n % 100).natAbs
  toString whole ++ "." ++ (if frac < 10 then "0" else "") ++ toString frac

/-- Python `str.title()` for the alphanumeric-and-separator strings the
classifier feeds it: uppercase an alphabetic character that starts a word,
lowercase the rest. -/
def pyTitle (s : String) : String :=
  let step : List Char × Bool → Char → List Char × Bool := fun acc c =>
    if c.isAlpha then
      ((if acc.2 then c.toUpper else c.toLower) :: acc.1, false)
    else (c :: acc.1, true)
  String.mk ((s.toList.foldl step ([], true)).1.reverse)

/-! ### Data model (src/helpdesk/models/models.py) -/

/-- The closed category taxonomy, `RequestCategory` in models.py. -/
inductive RequestCategory where
  | password_reset
  | software_installation
  | hardware_failure
  | network_connectivity
  | email_configuration
  | security_incident
  | policy_question
deriving DecidableEq, Repr

/-- The `.value` string of each enum member. -/
def RequestCategory.value : RequestCategory → String
  | .password_reset => "password_reset"
  | .software_installation => "software_installation"
  | .hardware_failure => "hardware_failure"
  | .network_connectivity => "network_connectivity"
  | .email_configuration => "email_configuration"
  | .security_incident => "security_incident"
  | .policy_question => "policy_question"

/-- Enumeration order of `RequestCategory`, as iterated by
`for enum_item in RequestCategory`. -/
def requestCategoryMembers : List RequestCategory :=
  [.password_reset, .software_installation, .hardware_failure,
   .network_connectivity, .email_configuration, .security_incident,
   .policy_question]

/-- `ClassificationResult` of models.py. -/
structure ClassificationResult where
  category : RequestCategory
  confidence : ℚ
  reasoning : String
deriving DecidableEq, Repr

/-- `RetrievalResult` of models.py lines 29-33: the pydantic model declares
exactly the three fields content, source and relevance_score. -/
structure RetrievalResult where
  content : String
  source : String
  relevance_score : ℚ
deriving DecidableEq, Repr

/-- Construction call `RetrievalResult(content=..., source=...,
relevance_score=..., section=...)` as used by every retrieval tier in
knowledge_retriever.py: pydantic's default `extra` policy silently ignores
the keyword argument `section`, which matches no declared field, so the
argument does not reach the resulting object. -/
def RetrievalResult.make (content source : String) (relevance_score : ℚ)
    (_sectionArg : String) : RetrievalResult :=
  { content := content, source := source, relevance_score := relevance_score }

/-- `EscalationDecision` of models.py. -/
structure EscalationDecision where
  should_escalate : Bool
  reason : String
  urgency_level : String
deriving DecidableEq, Repr

/-- `HelpDeskResponse` of models.py (the spec's PipelineResult).
Wall-clock `processing_time` is not modelled and carried as 0. -/
structure HelpDeskResponse where
  request_id : String
  classification : ClassificationResult
  retrieved_knowledge : List RetrievalResult
  response : String
  escalation : EscalationDecision
  processing_time : ℚ
deriving DecidableEq, Repr

/-- A knowledge-base chunk dict built by `_load_markdown_file` /
`_load_json_file`: keys content, source, section, type.  The dict key
`section` is the field `sectionTitle` here (`section` is reserved in Lean),
the key `type` is the field `kind`. -/
structure KnowledgeChunk where
  content : String
  source : String
  sectionTitle : String
  kind : String
deriving DecidableEq, Repr

/-! ### Knowledge retriever (src/helpdesk/core/knowledge_retriever.py) -/

/-- Score of one chunk in `_fallback_keyword_search`:
`sum(1 for word in query_words if word in content_lower)`. -/
def chunkScore (queryWords : List String) (c : KnowledgeChunk) : Nat :=
  queryWords.countP (fun w => strContains (pyLower c.content) w)

/-- `LLMKnowledgeRetriever._fallback_keyword_search` (lines 198-223):
tokenize the query, score each chunk, keep positive scores, stable-sort by
descending score — Python list.sort with reverse=True is stable, and any
two stable sorts of the same key agree, so it is modelled by a stable
insertion sort — take the top 3, relevance = score / number of query
tokens. -/
def fallbackKeywordSearch (chunks : List KnowledgeChunk) (query : String) :
    List RetrievalResult :=
  let queryWords := pySplitWs (pyLower query)
  let scoredChunks :=
    (chunks.map (fun c => (chunkScore queryWords c, c))).filter
      (fun p => decide (0 < p.1))
  let sorted := scoredChunks.insertionSort (fun a b => b.1 ≤ a.1)
  (sorted.take 3).map (fun p =>
    RetrievalResult.make p.2.content p.2.source
      ((p.1 : ℚ) / (queryWords.length : ℚ)) p.2.sectionTitle)

/-- The result-building loop of `retrieve` over the parsed indices:
`for idx in relevant_indices: if idx < len(...): results.append(...)`, with
the decreasing synthetic relevance `1.0 - len(results) * 0.1`. -/
def buildLLMResults (chunks : List KnowledgeChunk) (idxs : List Nat) :
    List RetrievalResult :=
  idxs.foldl (fun results idx =>
    match chunks.get? idx with
    | some c =>
        results ++ [RetrievalResult.make c.content c.source
          (1 - (results.length : ℚ) * (1 / 10)) c.sectionTitle]
    | none => results) []

/-- `LLMKnowledgeRetriever.retrieve` (lines 139-196).  The outcome of the
vector tier (`_vector_search`, empty when the index or client is absent or
the search raises) and of the semantic-tier completion call
(`_generate_response`, which may raise) are explicit parameters.
On an empty store return []; a non-empty vector result is returned as is;
otherwise the completion reply is parsed (`"none"` case-insensitively means
no indices; digit runs are filtered against the chunk count and capped at
3); only an exception of the completion call reaches the keyword tier. -/
def retrieve (chunks : List KnowledgeChunk) (vectorResults : List RetrievalResult)
    (llmResponse : Except String String) (query : String) : List RetrievalResult :=
  if chunks.isEmpty then []
  else if !vectorResults.isEmpty then vectorResults
  else
    match llmResponse with
    | .error _ => fallbackKeywordSearch chunks query
    | .ok response =>
        let relevantIndices :=
          if pyLower response ≠ "none" then
            ((extractNumbers response).filter (fun n => decide (n < chunks.length))).take 3
          else []
        buildLLMResults chunks relevantIndices

/-! ### JSON values and configuration files -/

/-- A parsed JSON value, for the configuration loads. -/
inductive Json where
  | null
  | bool (b : Bool)
  | num (q : ℚ)
  | str (s : String)
  | arr (elems : List Json)
  | obj (fields : List (String × Json))

/-- Python dict key access on a parsed JSON object. -/
def jsonLookup (key : String) (fields : List (String × Json)) : Option Json :=
  fields.lookup key

/-- Outcome of opening and json.load-ing a configuration file: the file is
missing (open raises FileNotFoundError), or present with either a parse
failure (json.load raises) or a parsed value. -/
inductive FileOutcome where
  | missing
  | content (parsed : Except String Json)

/-! ### Classifier (src/helpdesk/core/classifier.py) -/

/-- One entry of the classifier's `self.categories` table: the enum member
plus the three metadata values copied from the configuration record. -/
structure CategoryInfo where
  enum : RequestCategory
  description : Json
  typical_resolution_time : Json
  escalation_triggers : Json

/-- The hard-coded fallback table installed by
`LLMRequestClassifier._load_categories` on any load failure. -/
def defaultCategories : List (String × CategoryInfo) :=
  [("Password Reset",
    { enum := .password_reset,
      description := .str "User needs to reset or recover their password",
      typical_resolution_time := .str "5 minutes",
      escalation_triggers := .arr [.str "Multiple failed attempts"] }),
   ("Software Installation",
    { enum := .software_installation,
      description := .str "User needs help installing or updating software",
      typical_resolution_time := .str "15 minutes",
      escalation_triggers := .arr [.str "Admin rights required"] })]

/-- `for enum_item in RequestCategory: if enum_item.value == category_key`. -/
def enumFromValue (key : String) : Option RequestCategory :=
  requestCategoryMembers.find? (fun e => e.value == key)

/-- The try-body of `LLMRequestClassifier._load_categories` (lines 28-48):
open and parse the file, read `data['categories']`, and for every key that
matches an enum value build a table entry under the titled readable name;
any raised error (missing file, parse failure, non-dict data, missing
`categories` key, missing metadata key, non-dict record) is the `.error`
case. -/
def classifierLoadBody (file : FileOutcome) :
    Except String (List (String × CategoryInfo)) :=
  match file with
  | .missing => .error "FileNotFoundError"
  | .content (.error e) => .error e
  | .content (.ok data) =>
    match data with
    | .obj fields =>
      match jsonLookup "categories" fields with
      | none => .error "KeyError: categories"
      | some (.obj cats) =>
          cats.foldlM (fun acc p =>
            match enumFromValue p.1 with
            | none => .ok acc
            | some e =>
              match p.2 with
              | .obj catFields =>
                match jsonLookup "description" catFields,
                      jsonLookup "typical_resolution_time" catFields,
                      jsonLookup "escalation_triggers" catFields with
                | some d, some t, some tr =>
                    .ok (acc ++ [(pyTitle (p.1.replace "_" " "),
                      { enum := e, description := d,
                        typical_resolution_time := t,
                        escalation_triggers := tr })])
                | _, _, _ => .error "KeyError: metadata"
              | _ => .error "TypeError: category record is not a dict") []
      | some _ => .error "AttributeError: items"
    | _ => .error "TypeError: data is not a dict"

/-- `LLMRequestClassifier._load_categories` (lines 26-66): the whole body
is wrapped in `except Exception`, so every failure installs the built-in
default table; this function is total (never raises). -/
def classifierLoadCategories (file : FileOutcome) : List (String × CategoryInfo) :=
  match classifierLoadBody file with
  | .ok cats => cats
  | .error _ => defaultCategories

/-- `max(0.0, min(1.0, confidence))`. -/
def clamp01 (q : ℚ) : ℚ := max 0 (min 1 q)

/-- The keyword table of `_fallback_keyword_classification`, in the
dict-literal insertion order iterated by `.items()`. -/
def keywordMapping : List (String × List String) :=
  [("Password Reset", ["password", "login", "forgot", "reset", "access", "account"]),
   ("Software Installation", ["install", "software", "program", "application", "app", "update"]),
   ("Network Issues", ["internet", "wifi", "network", "connection", "slow"]),
   ("Hardware Support", ["computer", "laptop", "mouse", "keyboard", "screen", "hardware"]),
   ("Email Configuration", ["email", "outlook", "mail", "smtp", "imap"])]

/-- The loop body of `_fallback_keyword_classification` (lines 160-165):
a mapping entry takes part only when its name is a key of the category
table; its score is the count of its keywords contained in the lowercased
request, and it replaces the running best only on a strict improvement. -/
def fallbackScoreStep (cats : List (String × CategoryInfo))
    (requestText : String) (b : String × Nat) (p : String × List String) :
    String × Nat :=
  if (cats.lookup p.1).isSome then
    let score := p.2.countP (fun kw => strContains (pyLower requestText) kw)
    if b.2 < score then (p.1, score) else b
  else b

/-- `LLMRequestClassifier._fallback_keyword_classification` (lines 144-180):
score each mapping entry whose name is a key of the category table, keep the
strictly best (so the first entry attaining the maximum wins), derive the
confidence, and resolve the winning name to its enum — falling back to the
first table entry, which raises IndexError (`.error`) on an empty table. -/
def fallbackKeywordClassification (cats : List (String × CategoryInfo))
    (requestText : String) : Except String ClassificationResult :=
  let best := keywordMapping.foldl (fallbackScoreStep cats requestText)
    ("General Inquiry", 0)
  let confidence : ℚ := if 0 < best.2 then min (9 / 10) ((best.2 : ℚ) * (2 / 10)) else 3 / 10
  match cats.lookup best.1 with
  | some info =>
      .ok { category := info.enum, confidence := confidence,
            reasoning := "Classified based on keyword matching (score: " ++
              toString best.2 ++ ")" }
  | none =>
    match cats.head? with
    | some p =>
        .ok { category := p.2.enum, confidence := confidence,
              reasoning := "Classified based on keyword matching (score: " ++
                toString best.2 ++ ")" }
    | none => .error "IndexError: list index out of range"

/-- Category-name validation of the classify try-body (lines 93-102):
exact key, else case-insensitive containment either direction against each
key in order, else the first key (IndexError on an empty table). -/
def classifyValidate (cats : List (String × CategoryInfo))
    (predicted0 : String) : Except String String :=
  if (cats.lookup predicted0).isSome then .ok predicted0
  else
    match cats.find? (fun p =>
        strContains (pyLower predicted0) (pyLower p.1) ||
        strContains (pyLower p.1) (pyLower predicted0)) with
    | some p => .ok p.1
    | none =>
      match cats.head? with
      | some p => .ok p.1
      | none => .error "IndexError: list index out of range"

/-- The remainder of the classify try-body after the category name has
been validated: the confidence sub-call (whose reply is parsed in its own
bare except, defaulting to 0.8 and clamping a parsed value to [0,1]), the
reasoning sub-call, and the final enum lookup of the validated name. -/
def classifyFinish (cats : List (String × CategoryInfo))
    (confCall reasonCall : Except String String) (predicted : String) :
    Except String ClassificationResult :=
  match confCall with
  | .error e => .error e
  | .ok confResponse =>
    let confidence : ℚ :=
      match parseFloat (pyStrip confResponse) with
      | some v => clamp01 v
      | none => 0.8
    match reasonCall with
    | .error e => .error e
    | .ok reasoning =>
      match cats.lookup predicted with
      | some info =>
          .ok { category := info.enum, confidence := confidence,
                reasoning := pyStrip reasoning }
      | none => .error "KeyError"

/-- The try-body of `LLMRequestClassifier.classify` (lines 88-137), with
the three completion sub-calls as parameters (each may raise): category
call, name validation, then the confidence and reasoning calls — a raise
of any sub-call escapes this body. -/
def classifyPrimary (cats : List (String × CategoryInfo))
    (catCall confCall reasonCall : Except String String) :
    Except String ClassificationResult :=
  match catCall with
  | .error e => .error e
  | .ok response =>
    match classifyValidate cats (pyStrip response) with
    | .error e => .error e
    | .ok predicted => classifyFinish cats confCall reasonCall predicted

/-- `LLMRequestClassifier.classify` (lines 68-142): run the primary path;
any exception in it (including a raise of the confidence or reasoning
sub-call) switches to the keyword fallback on the request text. -/
def classify (cats : List (String × CategoryInfo))
    (catCall confCall reasonCall : Except String String)
    (requestText : String) : Except String ClassificationResult :=
  match classifyPrimary cats catCall confCall reasonCall with
  | .ok r => .ok r
  | .error _ => fallbackKeywordClassification cats requestText

/-! ### Escalation engine (src/helpdesk/core/escalation_logic.py) -/

/-- `Config.ESCALATION_KEYWORDS` of utils/config.py. -/
def escalationKeywords : List String :=
  ["urgent", "emergency", "critical", "asap", "immediately",
   "broken", "crashed", "not working", "down", "failed"]

/-- `Config.CLASSIFICATION_CONFIDENCE_THRESHOLD` of utils/config.py. -/
def classificationConfidenceThreshold : ℚ := 8 / 10

/-- The `business_impact_keywords` list of `should_escalate`. -/
def businessImpactKeywords : List String :=
  ["presentation", "meeting", "deadline", "client", "customer",
   "revenue", "business critical", "production", "server"]

/-- The `multiple_issue_indicators` list of `_contains_multiple_issues`,
including the bare connectors "also" and "plus". -/
def multipleIssueIndicators : List String :=
  ["and also", "in addition", "furthermore", "moreover",
   "another issue", "also", "plus", "as well as"]

/-- The `high_priority_categories` list of `should_escalate`. -/
def highPriorityCategories : List RequestCategory :=
  [.security_incident, .hardware_failure]

/-- `EscalationEngine._matches_trigger` (lines 95-110): lowercased direct
substring match, else every trigger word is a substring of some request
word. -/
def matchesTrigger (request trigger : String) : Bool :=
  let requestLower := pyLower request
  let triggerLower := pyLower trigger
  if strContains requestLower triggerLower then true
  else
    let triggerWords := pySplitWs triggerLower
    let requestWords := pySplitWs requestLower
    triggerWords.all (fun tw => requestWords.any (fun rw => strContains rw tw))

/-- `EscalationEngine._check_urgent_keywords` (lines 112-121). -/
def checkUrgentKeywords (request : String) : List String :=
  let requestLower := pyLower request
  escalationKeywords.filter (fun kw => strContains requestLower (pyLower kw))

/-- `EscalationEngine._contains_multiple_issues` (lines 123-132). -/
def containsMultipleIssues (request : String) : Bool :=
  let requestLower := pyLower request
  multipleIssueIndicators.any (fun ind => strContains requestLower ind)

/-- The mutable `reasons` / `urgency_level` locals of `should_escalate`,
threaded through the six rule blocks. -/
structure EscState where
  reasons : List String
  urgency : String
deriving DecidableEq, Repr

/-- The loop body of rule 1 of `should_escalate` (lines 40-43): a matching
category-specific trigger appends a reason and sets urgency "high". -/
def escTriggerStep (request : String) (st : EscState) (trigger : String) :
    EscState :=
  if matchesTrigger request trigger then
    { reasons := st.reasons ++ ["Category trigger: " ++ trigger],
      urgency := "high" }
  else st

/-- Rule 1 of `should_escalate` (lines 38-43): fold the trigger loop over
the category-specific triggers. -/
def escRule1 (rules : List (String × List String)) (request : String)
    (category : RequestCategory) (s : EscState) : EscState :=
  ((rules.lookup category.value).getD []).foldl (escTriggerStep request) s

/-- Rule 2 (lines 45-49): found urgent keywords extend the reasons and set
urgency "critical". -/
def escRule2 (request : String) (s : EscState) : EscState :=
  let found := checkUrgentKeywords request
  if found.isEmpty then s
  else
    { reasons := s.reasons ++ found.map (fun kw => "Urgent keyword: " ++ kw),
      urgency := "critical" }

/-- Rule 3 (lines 51-53): a sub-threshold confidence appends a reason, the
urgency is untouched. -/
def escRule3 (confidence : ℚ) (s : EscState) : EscState :=
  if confidence < classificationConfidenceThreshold then
    { s with reasons := s.reasons ++
        ["Low classification confidence: " ++ fmt2 confidence] }
  else s

/-- Rule 4 (lines 55-63): a high-priority category appends a reason and
sets urgency "critical". -/
def escRule4 (category : RequestCategory) (s : EscState) : EscState :=
  if category ∈ highPriorityCategories then
    { reasons := s.reasons ++ ["High-priority category: " ++ category.value],
      urgency := "critical" }
  else s

/-- Rule 5 (lines 65-67): a multiple-issues match appends a reason, the
urgency is untouched. -/
def escRule5 (request : String) (s : EscState) : EscState :=
  if containsMultipleIssues request then
    { s with reasons := s.reasons ++ ["Multiple issues detected in single request"] }
  else s

/-- Rule 6 (lines 69-80): the first matching business-impact keyword
appends a reason and upgrades a "normal" urgency to "high" (the loop
breaks after the first match). -/
def escRule6 (request : String) (s : EscState) : EscState :=
  match businessImpactKeywords.find?
      (fun kw => strContains (pyLower request) (pyLower kw)) with
  | some kw =>
      { reasons := s.reasons ++ ["Business impact indicator: " ++ kw],
        urgency := if s.urgency = "normal" then "high" else s.urgency }
  | none => s

/-- The initial escalation state of `should_escalate` (lines 35-36):
no reasons, urgency "normal". -/
def escState0 : EscState := { reasons := [], urgency := "normal" }

/-- The state after rule 1 of `should_escalate`. -/
def escState1 (rules : List (String × List String)) (request : String)
    (category : RequestCategory) : EscState :=
  escRule1 rules request category escState0

/-- The state after rule 2 of `should_escalate`. -/
def escState2 (rules : List (String × List String)) (request : String)
    (category : RequestCategory) : EscState :=
  escRule2 request (escState1 rules request category)

/-- The state after rule 3 of `should_escalate`. -/
def escState3 (rules : List (String × List String)) (request : String)
    (category : RequestCategory) (confidence : ℚ) : EscState :=
  escRule3 confidence (escState2 rules request category)

/-- The state after rule 4 of `should_escalate`. -/
def escState4 (rules : List (String × List String)) (request : String)
    (category : RequestCategory) (confidence : ℚ) : EscState :=
  escRule4 category (escState3 rules request category confidence)

/-- The state after rule 5 of `should_escalate`. -/
def escState5 (rules : List (String × List String)) (request : String)
    (category : RequestCategory) (confidence : ℚ) : EscState :=
  escRule5 request (escState4 rules request category confidence)

/-- The escalation state after all six rule blocks of `should_escalate`
have run in source order. -/
def escFinalState (rules : List (String × List String)) (request : String)
    (category : RequestCategory) (confidence : ℚ) : EscState :=
  escRule6 request (escState5 rules request category confidence)

/-- `EscalationEngine.should_escalate` (lines 31-93): run the six rules,
escalate iff any reason accumulated, join the reasons with "; " or use the
canned no-escalation message. -/
def shouldEscalate (rules : List (String × List String)) (request : String)
    (category : RequestCategory) (confidence : ℚ) : EscalationDecision :=
  let s := escFinalState rules request category confidence
  { should_escalate := !s.reasons.isEmpty,
    reason :=
      if s.reasons.isEmpty then "Request can be handled through automated response"
      else String.intercalate "; " s.reasons,
    urgency_level := s.urgency }

/-- `EscalationEngine._load_categories` (lines 15-22): only a missing file
(FileNotFoundError) is recovered, into an empty dict; a parse failure of a
present file, a non-dict document, or a missing `categories` key raises.
The `data['categories']` value itself is returned unchecked. -/
def escalationLoadCategories (file : FileOutcome) : Except String Json :=
  match file with
  | .missing => .ok (.obj [])
  | .content (.error e) => .error e
  | .content (.ok data) =>
    match data with
    | .obj fields =>
      match jsonLookup "categories" fields with
      | some v => .ok v
      | none => .error "KeyError: categories"
    | _ => .error "TypeError: data is not a dict"

/-- `EscalationEngine._load_escalation_rules` (lines 24-29): iterate
`self.categories.items()` (AttributeError on a non-dict) and take
`info.get('escalation_triggers', [])` per category (AttributeError when an
info record is not a dict). -/
def loadEscalationRules (cats : Json) :
    Except String (List (String × Json)) :=
  match cats with
  | .obj entries =>
    entries.foldlM (fun acc p =>
      match p.2 with
      | .obj fields =>
          .ok (acc ++ [(p.1,
            (jsonLookup "escalation_triggers" fields).getD (.arr []))])
      | _ => .error "AttributeError: get") []
  | _ => .error "AttributeError: items"

/-- `EscalationEngine.__init__` (lines 11-13): load the categories then
derive the per-category rules; any raise propagates out of construction. -/
def escalationEngineInit (file : FileOutcome) :
    Except String (List (String × Json)) := do
  let cats ← escalationLoadCategories file
  loadEscalationRules cats

/-! ### Orchestrator (src/helpdesk/core/system.py) -/

/-- Outcomes of the four pipeline steps of `process_request`, each of which
may raise. -/
structure PipelineSteps where
  classifyStep : Except String ClassificationResult
  retrieveStep : Except String (List RetrievalResult)
  escalateStep : Except String EscalationDecision
  generateStep : Except String String

/-- The top-level modules importable in this repository: every entry point
(main.py, scripts/start_server.py, tests) puts only `<root>/src` on
sys.path, whose sole top-level package is `helpdesk`. -/
def sysPathTopLevelModules : List String := ["helpdesk"]

/-- The statement `from models import ...` executed inside the except
handler of `process_request` (system.py line 86): resolving the top-level
module named `models`, which raises ModuleNotFoundError when absent. -/
def pyImportModels : Except String Unit :=
  if sysPathTopLevelModules.contains "models" then .ok ()
  else .error "ModuleNotFoundError: No module named models"

/-- The except handler of `process_request` (lines 82-103): first the
module import, then — were it to succeed — the synthetic fallback
HelpDeskResponse with defaulted category, confidence 0, forced escalation
and urgency "high". -/
def processRequestErrorHandler (requestId msg : String) :
    Except String HelpDeskResponse :=
  match pyImportModels with
  | .error e => .error e
  | .ok _ =>
      .ok { request_id := requestId,
            classification :=
              { category := .policy_question, confidence := 0,
                reasoning := "Error in classification: " ++ msg },
            retrieved_knowledge := [],
            response := "I apologize, but I encountered an error processing your request. Please contact IT support directly for assistance. Error: " ++ msg,
            escalation :=
              { should_escalate := true, reason := "System error: " ++ msg,
                urgency_level := "high" },
            processing_time := 0 }

/-- `HelpDeskSystem.process_request` (lines 37-103): the four steps run in
order inside one try; the first raise reaches the except handler. -/
def processRequest (requestId : String) (steps : PipelineSteps) :
    Except String HelpDeskResponse :=
  match steps.classifyStep with
  | .error e => processRequestErrorHandler requestId e
  | .ok classification =>
    match steps.retrieveStep with
    | .error e => processRequestErrorHandler requestId e
    | .ok retrieved =>
      match steps.escalateStep with
      | .error e => processRequestErrorHandler requestId e
      | .ok escalation =>
        match steps.generateStep with
        | .error e => processRequestErrorHandler requestId e
        | .ok responseText =>
            .ok { request_id := requestId,
                  classification := classification,
                  retrieved_knowledge := retrieved,
                  response := responseText,
                  escalation := escalation,
                  processing_time := 0 }

/-! ### Concrete knowledge chunks used by witnesses and counterexamples -/

/-- A small markdown-style chunk whose content mentions passwords. -/
def kbPasswordChunk : KnowledgeChunk :=
  { content := "Reset your password via the portal", source := "kb.md",
    sectionTitle := "Passwords", kind := "markdown" }

/-- A small markdown-style chunk whose content mentions installation. -/
def kbInstallChunk : KnowledgeChunk :=
  { content := "Install software from the app store", source := "kb.md",
    sectionTitle := "Install", kind := "markdown" }

/-! ### C1 -/

/-- C1: the claim states that `process_request` never propagates an
exception and answers any pipeline-step failure with a synthetic
PipelineResult (confidence 0, forced escalation, urgency "high").  In the
code the except handler first executes `from models import ...`; no
top-level module `models` is importable (sys.path carries only the
`helpdesk` package), so for every request whose classification step raises,
`process_request` itself raises ModuleNotFoundError instead of returning
the fallback result. -/
theorem c1_error_handler_raises (requestId e : String)
    (retrieveStep : Except String (List RetrievalResult))
    (escalateStep : Except String EscalationDecision)
    (generateStep : Except String String) :
    processRequest requestId
      { classifyStep := Except.error e, retrieveStep := retrieveStep,
        escalateStep := escalateStep, generateStep := generateStep } =
    Except.error "ModuleNotFoundError: No module named models" := rfl

/-! ### C5 -/

/-- C5: the claim states that every RetrievalResult carries the `section`
of the chunk it was built from.  The pydantic model RetrievalResult
(models.py lines 29-33) has no `section` field, so the `section=` keyword
argument passed by every retrieval tier is silently discarded: the
constructed result is identical whatever section string is supplied, and
carries only content, source and relevance_score. -/
theorem c5_section_argument_discarded (content source : String)
    (relevance : ℚ) (sectionA sectionB : String) :
    RetrievalResult.make content source relevance sectionA =
    RetrievalResult.make content source relevance sectionB := rfl

/-! ### C2 -/

/-- C2 counterexample: one chunk containing the query token, the vector
tier empty, the semantic tier completing with the reply "none".  The claim
says `retrieve` must fall through to the keyword tier and return the
matching chunk; the code returns the empty list (the keyword tier is only
reached from the except branch), although the keyword tier would have
returned the chunk. -/
theorem c2_counterexample :
    retrieve [kbPasswordChunk] [] (.ok "none") "password" = [] ∧
    (fallbackKeywordSearch [kbPasswordChunk] "password").map
        RetrievalResult.content = [kbPasswordChunk.content] := by
  exact ⟨rfl, rfl⟩

/-- C2 amended: on a non-empty store with the vector tier empty, the
keyword tier is reached exactly when the semantic-tier completion call
raises; when that call completes with the reply "none" (any casing),
`retrieve` returns the empty list without consulting the keyword tier. -/
theorem c2_keyword_tier_only_on_exception
    (chunks : List KnowledgeChunk) (query e resp : String)
    (hne : chunks ≠ []) (hresp : pyLower resp = "none") :
    retrieve chunks [] (.error e) query = fallbackKeywordSearch chunks query ∧
    retrieve chunks [] (.ok resp) query = [] := by
  have hemp : chunks.isEmpty = false := by
    cases chunks with
    | nil => exact absurd rfl hne
    | cons c t => rfl
  constructor
  · simp [retrieve, hemp]
  · simp [retrieve, hemp, hresp, buildLLMResults]

/-- C2 witness: the amended statement evaluated on a concrete store. -/
theorem c2_witness :
    retrieve [kbPasswordChunk] [] (.error "LLM generation failed") "password" =
      fallbackKeywordSearch [kbPasswordChunk] "password" ∧
    retrieve [kbPasswordChunk] [] (.ok "None") "password" = [] :=
  c2_keyword_tier_only_on_exception [kbPasswordChunk] "password"
    "LLM generation failed" "None" (by decide) (by decide)

/-! ### C3 -/

/-- C3 counterexample: with the default category table, the category
sub-call succeeds and picks "Password Reset", but the confidence sub-call
raises; the claim says the category decision survives with confidence 0.8,
yet `classify` abandons the primary path and returns the keyword-fallback
result, whose category for this request is software_installation. -/
theorem c3_counterexample :
    (classify defaultCategories (.ok "Password Reset")
        (.error "LLM generation failed: timeout") (.ok "fine")
        "install software update please").map ClassificationResult.category =
      .ok RequestCategory.software_installation ∧
    (classify defaultCategories (.ok "Password Reset")
        (.error "LLM generation failed: timeout") (.ok "fine")
        "install software update please").map ClassificationResult.reasoning =
      .ok "Classified based on keyword matching (score: 3)" ∧
    (defaultCategories.lookup "Password Reset").map CategoryInfo.enum =
      some RequestCategory.password_reset := by
  exact ⟨rfl, rfl, rfl⟩

/-- C3 amended: only a *malformed reply* of the confidence sub-call is
tolerated inside the primary path (confidence defaults to 0.8 and the
category decision survives); an *exception* raised by the confidence or
rationale sub-call aborts the whole primary path and `classify` switches to
the keyword fallback, discarding the category decision. -/
theorem c3_malformed_confidence_keeps_category
    (cats : List (String × CategoryInfo))
    (catResp confResp reasonResp request : String) (info : CategoryInfo)
    (hlook : cats.lookup (pyStrip catResp) = some info)
    (hconf : parseFloat (pyStrip confResp) = none) :
    classify cats (.ok catResp) (.ok confResp) (.ok reasonResp) request =
      .ok { category := info.enum, confidence := 0.8,
            reasoning := pyStrip reasonResp } := by
  unfold classify classifyPrimary classifyValidate classifyFinish
  simp [hlook, hconf]

/-- C3 witness: the amended statement at the default table, a successful
category reply, and a malformed (non-numeric) confidence reply. -/
theorem c3_witness :
    classify defaultCategories (.ok "Password Reset") (.ok "very confident")
        (.ok " fine ") "whatever" =
      .ok { category := .password_reset, confidence := 0.8,
            reasoning := pyStrip " fine " } :=
  c3_malformed_confidence_keeps_category defaultCategories "Password Reset"
    "very confident" " fine " "whatever"
    { enum := .password_reset,
      description := .str "User needs to reset or recover their password",
      typical_resolution_time := .str "5 minutes",
      escalation_triggers := .arr [.str "Multiple failed attempts"] }
    rfl rfl

/-! ### C6 -/

/-- C6 counterexample: a categories file that is present but malformed.
The claim says constructing the Escalation Engine from it does not raise;
`EscalationEngine._load_categories` catches only FileNotFoundError, so the
json.load failure propagates out of the constructor. -/
theorem c6_counterexample :
    escalationEngineInit
        (.content (.error "JSONDecodeError: Expecting value")) =
      .error "JSONDecodeError: Expecting value" := rfl

/-- C6 amended: the Classifier's table load never raises — a missing file
and a malformed file both install the built-in default table — while the
Escalation Engine recovers only a *missing* file (into an empty rule map);
a malformed present file raises during its construction. -/
theorem c6_load_recovery (e : String) :
    classifierLoadCategories (.content (.error e)) = defaultCategories ∧
    classifierLoadCategories .missing = defaultCategories ∧
    defaultCategories ≠ [] ∧
    escalationEngineInit .missing = .ok [] := by
  refine ⟨rfl, rfl, ?_, rfl⟩
  intro h
  exact absurd (congrArg List.length h) (by decide)

/-! ### Reason-accumulation lemmas for the escalation rules -/

/-- Rule 3 only ever appends to the reason list. -/
lemma escRule3_reasons_append (confidence : ℚ) (s : EscState) :
    ∃ t, (escRule3 confidence s).reasons = s.reasons ++ t := by
  unfold escRule3
  split
  · exact ⟨_, rfl⟩
  · exact ⟨[], by simp⟩

/-- Rule 4 only ever appends to the reason list. -/
lemma escRule4_reasons_append (category : RequestCategory) (s : EscState) :
    ∃ t, (escRule4 category s).reasons = s.reasons ++ t := by
  unfold escRule4
  split
  · exact ⟨_, rfl⟩
  · exact ⟨[], by simp⟩

/-- Rule 5 only ever appends to the reason list. -/
lemma escRule5_reasons_append (request : String) (s : EscState) :
    ∃ t, (escRule5 request s).reasons = s.reasons ++ t := by
  unfold escRule5
  split
  · exact ⟨_, rfl⟩
  · exact ⟨[], by simp⟩

/-- Rule 6 only ever appends to the reason list. -/
lemma escRule6_reasons_append (request : String) (s : EscState) :
    ∃ t, (escRule6 request s).reasons = s.reasons ++ t := by
  unfold escRule6
  cases businessImpactKeywords.find?
      (fun kw => strContains (pyLower request) (pyLower kw)) with
  | none => exact ⟨[], by simp⟩
  | some kw => exact ⟨_, rfl⟩

/-! ### C10 -/

/-- C10: the connector list of `_contains_multiple_issues` contains the
bare words "also" and "plus", so any request whose lowercased text contains
either substring (also inside a longer word) makes the multiple-issues rule
fire and forces should_escalate = true, whatever the other rules do. -/
theorem c10_bare_also_plus_escalates (rules : List (String × List String))
    (request : String) (category : RequestCategory) (confidence : ℚ)
    (h : strContains (pyLower request) "also" = true ∨
         strContains (pyLower request) "plus" = true) :
    containsMultipleIssues request = true ∧
    (shouldEscalate rules request category confidence).should_escalate = true := by
  have hm : containsMultipleIssues request = true := by
    unfold containsMultipleIssues
    simp only [List.any_eq_true]
    rcases h with h | h
    · exact ⟨"also", by simp [multipleIssueIndicators], h⟩
    · exact ⟨"plus", by simp [multipleIssueIndicators], h⟩
  refine ⟨hm, ?_⟩
  have h5 : (escState5 rules request category confidence).reasons ≠ [] := by
    unfold escState5 escRule5
    rw [hm]
    simp
  obtain ⟨t, ht⟩ :=
    escRule6_reasons_append request (escState5 rules request category confidence)
  have h6 : (escFinalState rules request category confidence).reasons ≠ [] := by
    unfold escFinalState
    rw [ht]
    simp only [ne_eq, List.append_eq_nil]
    intro hc
    exact h5 hc.1
  unfold shouldEscalate
  simp [h6]

/-- C10 witness: a request containing "plus" only inside the word "plush",
which matches no other rule, still escalates. -/
theorem c10_witness :
    containsMultipleIssues "I plush my toy" = true ∧
    (shouldEscalate [] "I plush my toy" .password_reset 1).should_escalate = true :=
  c10_bare_also_plus_escalates [] "I plush my toy" .password_reset 1
    (Or.inr (by decide))

/-! ### C7 -/

/-- C7: should_escalate is true exactly when some rule accumulated a
reason; in that case the reason field is the accumulated reasons joined in
evaluation order with "; ", and otherwise it is the fixed canned message
(never a join of the empty list). -/
theorem c7_reason_assembly (rules : List (String × List String))
    (request : String) (category : RequestCategory) (confidence : ℚ) :
    ((shouldEscalate rules request category confidence).should_escalate = true ↔
      (escFinalState rules request category confidence).reasons ≠ []) ∧
    ((escFinalState rules request category confidence).reasons ≠ [] →
      (shouldEscalate rules request category confidence).reason =
        String.intercalate "; "
          (escFinalState rules request category confidence).reasons) ∧
    ((escFinalState rules request category confidence).reasons = [] →
      (shouldEscalate rules request category confidence).reason =
        "Request can be handled through automated response") := by
  unfold shouldEscalate
  by_cases h : (escFinalState rules request category confidence).reasons = []
  · simp [h]
  · simp [h]

/-- C7 witness: a request that fires only the urgent-keyword rule; the
decision escalates and its reason is the joined accumulated list. -/
theorem c7_witness :
    (shouldEscalate [] "my laptop is broken" .password_reset 1).should_escalate =
      true ∧
    (shouldEscalate [] "my laptop is broken" .password_reset 1).reason =
      String.intercalate "; "
        (escFinalState [] "my laptop is broken" .password_reset 1).reasons := by
  have h := c7_reason_assembly [] "my laptop is broken" .password_reset 1
  have h2 : (escState2 [] "my laptop is broken" .password_reset).reasons =
      ["Urgent keyword: broken"] := by decide
  have hne : (escFinalState [] "my laptop is broken" .password_reset 1).reasons ≠ [] := by
    obtain ⟨t3, ht3⟩ := escRule3_reasons_append 1
      (escState2 [] "my laptop is broken" .password_reset)
    obtain ⟨t4, ht4⟩ := escRule4_reasons_append RequestCategory.password_reset
      (escState3 [] "my laptop is broken" .password_reset 1)
    obtain ⟨t5, ht5⟩ := escRule5_reasons_append "my laptop is broken"
      (escState4 [] "my laptop is broken" .password_reset 1)
    obtain ⟨t6, ht6⟩ := escRule6_reasons_append "my laptop is broken"
      (escState5 [] "my laptop is broken" .password_reset 1)
    unfold escFinalState
    rw [ht6]
    unfold escState5
    rw [ht5]
    unfold escState4
    rw [ht4]
    unfold escState3
    rw [ht3, h2]
    simp
  exact ⟨h.1.mpr hne, h.2.1 hne⟩

/-! ### C4 -/

/-- Rank of an urgency string in the order normal < high < critical. -/
def urgencyRank (u : String) : Nat :=
  if u = "normal" then 0 else if u = "high" then 1 else 2

/-- The three urgency values the engine can produce. -/
def urgencyValid (u : String) : Prop :=
  u = "normal" ∨ u = "high" ∨ u = "critical"

lemma urgencyRank_le_two (u : String) : urgencyRank u ≤ 2 := by
  unfold urgencyRank
  by_cases h1 : u = "normal" <;> by_cases h2 : u = "high" <;> simp [h1, h2]

lemma escTriggerStep_urgency (request : String) (st : EscState)
    (trigger : String) :
    (escTriggerStep request st trigger).urgency = st.urgency ∨
    (escTriggerStep request st trigger).urgency = "high" := by
  unfold escTriggerStep
  split
  · exact Or.inr rfl
  · exact Or.inl rfl

lemma foldTrigger_urgency (request : String) (l : List String) :
    ∀ s : EscState, (l.foldl (escTriggerStep request) s).urgency = s.urgency ∨
      (l.foldl (escTriggerStep request) s).urgency = "high" := by
  induction l with
  | nil => intro s; exact Or.inl rfl
  | cons t ts ih =>
    intro s
    simp only [List.foldl_cons]
    rcases ih (escTriggerStep request s t) with h | h
    · rw [h]; exact escTriggerStep_urgency request s t
    · exact Or.inr h

lemma escRule1_urgency (rules : List (String × List String)) (request : String)
    (category : RequestCategory) (s : EscState) :
    (escRule1 rules request category s).urgency = s.urgency ∨
    (escRule1 rules request category s).urgency = "high" :=
  foldTrigger_urgency request ((rules.lookup category.value).getD []) s

lemma escRule2_urgency (request : String) (s : EscState) :
    (escRule2 request s).urgency = s.urgency ∨
    (escRule2 request s).urgency = "critical" := by
  unfold escRule2
  dsimp only
  split
  · exact Or.inl rfl
  · exact Or.inr rfl

lemma escRule3_urgency (confidence : ℚ) (s : EscState) :
    (escRule3 confidence s).urgency = s.urgency := by
  unfold escRule3
  split <;> rfl

lemma escRule4_urgency (category : RequestCategory) (s : EscState) :
    (escRule4 category s).urgency = s.urgency ∨
    (escRule4 category s).urgency = "critical" := by
  unfold escRule4
  split
  · exact Or.inr rfl
  · exact Or.inl rfl

lemma escRule5_urgency (request : String) (s : EscState) :
    (escRule5 request s).urgency = s.urgency := by
  unfold escRule5
  split <;> rfl

lemma escRule6_urgency (request : String) (s : EscState) :
    (escRule6 request s).urgency = s.urgency ∨
    (s.urgency = "normal" ∧ (escRule6 request s).urgency = "high") := by
  unfold escRule6
  cases businessImpactKeywords.find?
      (fun kw => strContains (pyLower request) (pyLower kw)) with
  | none => exact Or.inl rfl
  | some kw =>
    by_cases h : s.urgency = "normal"
    · exact Or.inr ⟨h, by simp [h]⟩
    · exact Or.inl (by simp [h])

lemma urgencyRank_mono_of_eq_or_crit {u v : String}
    (h : v = u ∨ v = "critical") : urgencyRank u ≤ urgencyRank v := by
  rcases h with h | h
  · rw [h]
  · rw [h]
    exact urgencyRank_le_two u

/-- C4: the urgency never decreases across the six escalation rules in
their fixed evaluation order, and the final urgency level is one of
normal, high, critical. -/
theorem c4_urgency_monotone (rules : List (String × List String))
    (request : String) (category : RequestCategory) (confidence : ℚ) :
    urgencyRank escState0.urgency ≤
      urgencyRank (escState1 rules request category).urgency ∧
    urgencyRank (escState1 rules request category).urgency ≤
      urgencyRank (escState2 rules request category).urgency ∧
    urgencyRank (escState2 rules request category).urgency ≤
      urgencyRank (escState3 rules request category confidence).urgency ∧
    urgencyRank (escState3 rules request category confidence).urgency ≤
      urgencyRank (escState4 rules request category confidence).urgency ∧
    urgencyRank (escState4 rules request category confidence).urgency ≤
      urgencyRank (escState5 rules request category confidence).urgency ∧
    urgencyRank (escState5 rules request category confidence).urgency ≤
      urgencyRank (escFinalState rules request category confidence).urgency ∧
    (shouldEscalate rules request category confidence).urgency_level ∈
      (["normal", "high", "critical"] : List String) := by
  refine ⟨Nat.zero_le _, ?_, ?_, ?_, ?_, ?_, ?_⟩
  · exact urgencyRank_mono_of_eq_or_crit
      (escRule2_urgency request (escState1 rules request category))
  · rw [escState3, escRule3_urgency]
  · exact urgencyRank_mono_of_eq_or_crit
      (escRule4_urgency category (escState3 rules request category confidence))
  · rw [escState5, escRule5_urgency]
  · rcases escRule6_urgency request
        (escState5 rules request category confidence) with h | h
    · rw [escFinalState, h]
    · rw [escFinalState, h.2, h.1]
      decide
  · have hvalid : urgencyValid
        (escFinalState rules request category confidence).urgency := by
      have h0 : urgencyValid escState0.urgency := Or.inl rfl
      have h1 : urgencyValid (escState1 rules request category).urgency := by
        rcases escRule1_urgency rules request category escState0 with h | h
        · rw [escState1, h]; exact h0
        · rw [escState1, h]; exact Or.inr (Or.inl rfl)
      have h2 : urgencyValid (escState2 rules request category).urgency := by
        rcases escRule2_urgency request (escState1 rules request category)
            with h | h
        · rw [escState2, h]; exact h1
        · rw [escState2, h]; exact Or.inr (Or.inr rfl)
      have h3 : urgencyValid
          (escState3 rules request category confidence).urgency := by
        rw [escState3, escRule3_urgency]; exact h2
      have h4 : urgencyValid
          (escState4 rules request category confidence).urgency := by
        rcases escRule4_urgency category
            (escState3 rules request category confidence) with h | h
        · rw [escState4, h]; exact h3
        · rw [escState4, h]; exact Or.inr (Or.inr rfl)
      have h5 : urgencyValid
          (escState5 rules request category confidence).urgency := by
        rw [escState5, escRule5_urgency]; exact h4
      rcases escRule6_urgency request
          (escState5 rules request category confidence) with h | h
      · rw [escFinalState, h]; exact h5
      · rw [escFinalState, h.2]; exact Or.inr (Or.inl rfl)
    have heq : (shouldEscalate rules request category confidence).urgency_level =
        (escFinalState rules request category confidence).urgency := rfl
    rw [heq]
    rcases hvalid with h | h | h <;> simp [h]

/-! ### C8 -/

lemma natCastDiv_mono {a b : ℕ} (n : ℕ) (h : a ≤ b) :
    (a : ℚ) / (n : ℚ) ≤ (b : ℚ) / (n : ℚ) := by
  rcases Nat.eq_zero_or_pos n with h0 | h0
  · subst h0; simp
  · have hn : (0 : ℚ) < (n : ℚ) := by exact_mod_cast h0
    exact (div_le_div_iff_of_pos_right hn).mpr (by exact_mod_cast h)

/-- C8: the keyword tier splits the lowercased query on whitespace, keeps
only chunks containing at least one token (score > 0), sorts by descending
score, returns at most 3 results with relevance = score / token count, and
returns the empty list on a token-less query (so the division is never
reached there). -/
theorem c8_keyword_tier_spec (chunks : List KnowledgeChunk) (query : String) :
    (pySplitWs (pyLower query) = [] → fallbackKeywordSearch chunks query = []) ∧
    (fallbackKeywordSearch chunks query).length ≤ 3 ∧
    List.Pairwise (fun a b => b.relevance_score ≤ a.relevance_score)
      (fallbackKeywordSearch chunks query) ∧
    (∀ r ∈ fallbackKeywordSearch chunks query, ∃ c ∈ chunks,
       0 < chunkScore (pySplitWs (pyLower query)) c ∧
       r = RetrievalResult.make c.content c.source
         ((chunkScore (pySplitWs (pyLower query)) c : ℚ) /
           ((pySplitWs (pyLower query)).length : ℚ)) c.sectionTitle) := by
  haveI htot : IsTotal (ℕ × KnowledgeChunk) (fun a b => b.1 ≤ a.1) :=
    ⟨fun a b => le_total b.1 a.1⟩
  haveI htrans : IsTrans (ℕ × KnowledgeChunk) (fun a b => b.1 ≤ a.1) :=
    ⟨fun _ _ _ hab hbc => le_trans hbc hab⟩
  refine ⟨?_, ?_, ?_, ?_⟩
  · intro h
    simp only [fallbackKeywordSearch]
    have hfil : (chunks.map
        (fun c => (chunkScore (pySplitWs (pyLower query)) c, c))).filter
          (fun p => decide (0 < p.1)) = [] := by
      rw [List.filter_eq_nil_iff]
      intro p hp
      obtain ⟨c, _, rfl⟩ := List.mem_map.mp hp
      simp [chunkScore, h]
    rw [hfil]
    rfl
  · simp only [fallbackKeywordSearch, List.length_map]
    exact List.length_take_le _ _
  · simp only [fallbackKeywordSearch]
    refine List.Pairwise.map (R := fun a b : ℕ × KnowledgeChunk => b.1 ≤ a.1)
      _ (fun a b hab => ?_) ?_
    · exact natCastDiv_mono _ hab
    · refine List.Pairwise.sublist (List.take_sublist _ _) ?_
      exact List.sorted_insertionSort _ _
  · intro r hr
    simp only [fallbackKeywordSearch] at hr
    obtain ⟨p, hp, rfl⟩ := List.mem_map.mp hr
    have hp2 := List.mem_of_mem_take hp
    have hp3 := (List.perm_insertionSort
      (fun a b : ℕ × KnowledgeChunk => b.1 ≤ a.1) _).mem_iff.mp hp2
    obtain ⟨hmem, hpos⟩ := List.mem_filter.mp hp3
    obtain ⟨c, hc, rfl⟩ := List.mem_map.mp hmem
    refine ⟨c, hc, ?_, rfl⟩
    simpa using hpos

/-- C8 witness: a token-less query returns the empty list, and a concrete
two-chunk store yields at most three results. -/
theorem c8_witness :
    fallbackKeywordSearch [kbPasswordChunk] "" = [] ∧
    (fallbackKeywordSearch [kbPasswordChunk, kbInstallChunk]
      "password reset help").length ≤ 3 :=
  ⟨(c8_keyword_tier_spec [kbPasswordChunk] "").1 rfl,
   (c8_keyword_tier_spec [kbPasswordChunk, kbInstallChunk]
     "password reset help").2.1⟩

/-! ### C9 -/

/-- Spec-side definition for C9 (following the claim's words): a keyword
table entry takes part when its category name is registered in the
classifier's table. -/
def specEligible (cats : List (String × CategoryInfo))
    (p : String × List String) : Bool :=
  (cats.lookup p.1).isSome

/-- Spec-side definition for C9: the number of an entry's keywords
contained in the lowercased request. -/
def specScore (request : String) (p : String × List String) : Nat :=
  p.2.countP (fun kw => strContains (pyLower request) kw)

/-- Spec-side definition for C9: the highest eligible score over a list of
keyword-table entries. -/
def specMaxScore (cats : List (String × CategoryInfo)) (request : String)
    (l : List (String × List String)) : Nat :=
  ((l.filter (specEligible cats)).map (specScore request)).foldr max 0

/-- Spec-side definition for C9: the claim's "matched_keyword_count", the
highest score over the eligible entries of the keyword table. -/
def specBestScore (cats : List (String × CategoryInfo))
    (request : String) : Nat :=
  specMaxScore cats request keywordMapping

lemma fallbackScoreStep_eq (cats : List (String × CategoryInfo))
    (request : String) (b : String × Nat) (p : String × List String) :
    fallbackScoreStep cats request b p =
      if specEligible cats p then
        (if b.2 < specScore request p then (p.1, specScore request p) else b)
      else b := rfl

lemma specMaxScore_cons (cats : List (String × CategoryInfo))
    (request : String) (p : String × List String)
    (t : List (String × List String)) :
    specMaxScore cats request (p :: t) =
      if specEligible cats p then
        max (specScore request p) (specMaxScore cats request t)
      else specMaxScore cats request t := by
  unfold specMaxScore
  by_cases h : specEligible cats p = true <;> simp [List.filter_cons, h]

/-- The strict-improvement fold of the fallback classifier computes the
maximum eligible score, and its winner is the first eligible entry
attaining that maximum. -/
lemma fallbackFold_spec (cats : List (String × CategoryInfo))
    (request : String) :
    ∀ (l : List (String × List String)) (b : String × Nat),
      (specMaxScore cats request l ≤ b.2 →
        l.foldl (fallbackScoreStep cats request) b = b) ∧
      (b.2 < specMaxScore cats request l →
        ∃ p, (l.filter (specEligible cats)).find?
            (fun q => specScore request q == specMaxScore cats request l) =
              some p ∧
          l.foldl (fallbackScoreStep cats request) b =
            (p.1, specMaxScore cats request l)) := by
  intro l
  induction l with
  | nil =>
    intro b
    refine ⟨fun _ => rfl, fun h => absurd h (by simp [specMaxScore])⟩
  | cons p t ih =>
    intro b
    by_cases he : specEligible cats p = true
    · have hM : specMaxScore cats request (p :: t) =
          max (specScore request p) (specMaxScore cats request t) := by
        rw [specMaxScore_cons, if_pos he]
      have hfil : (p :: t).filter (specEligible cats) =
          p :: t.filter (specEligible cats) := by
        simp [List.filter_cons, he]
      have hstep : fallbackScoreStep cats request b p =
          if b.2 < specScore request p then (p.1, specScore request p)
          else b := by
        rw [fallbackScoreStep_eq, if_pos he]
      constructor
      · intro h
        rw [hM] at h
        have hsp2 : specScore request p ≤ b.2 := le_trans (le_max_left _ _) h
        have hMt2 : specMaxScore cats request t ≤ b.2 :=
          le_trans (le_max_right _ _) h
        rw [List.foldl_cons, hstep, if_neg (not_lt.mpr hsp2)]
        exact (ih b).1 hMt2
      · intro h
        rw [hM] at h
        rw [hM, List.foldl_cons, hstep, hfil]
        by_cases hb : b.2 < specScore request p
        · rw [if_pos hb]
          by_cases hcmp : specMaxScore cats request t ≤ specScore request p
          · have hMeq : max (specScore request p)
                (specMaxScore cats request t) = specScore request p :=
              max_eq_left hcmp
            rw [hMeq]
            refine ⟨p, ?_, ?_⟩
            · exact List.find?_cons_of_pos _ (by simp)
            · exact (ih (p.1, specScore request p)).1 (by simpa using hcmp)
          · push_neg at hcmp
            have hMeq : max (specScore request p)
                (specMaxScore cats request t) = specMaxScore cats request t :=
              max_eq_right (le_of_lt hcmp)
            rw [hMeq]
            obtain ⟨q, hq1, hq2⟩ :=
              (ih (p.1, specScore request p)).2 (by simpa using hcmp)
            refine ⟨q, ?_, hq2⟩
            rw [List.find?_cons_of_neg _ (by simp; omega)]
            exact hq1
        · rw [if_neg hb]
          push_neg at hb
          have hMt2 : b.2 < specMaxScore cats request t := by
            rcases lt_max_iff.mp h with h1 | h1
            · exact absurd h1 (not_lt.mpr hb)
            · exact h1
          have hMeq : max (specScore request p) (specMaxScore cats request t) =
              specMaxScore cats request t :=
            max_eq_right (le_of_lt (lt_of_le_of_lt hb hMt2))
          rw [hMeq]
          obtain ⟨q, hq1, hq2⟩ := (ih b).2 hMt2
          refine ⟨q, ?_, hq2⟩
          rw [List.find?_cons_of_neg _ (by simp; omega)]
          exact hq1
    · have hM : specMaxScore cats request (p :: t) =
          specMaxScore cats request t := by
        rw [specMaxScore_cons, if_neg]
        simp [he]
      have hfil : (p :: t).filter (specEligible cats) =
          t.filter (specEligible cats) := by
        simp [List.filter_cons, he]
      have hstep : fallbackScoreStep cats request b p = b := by
        rw [fallbackScoreStep_eq, if_neg]
        simp [he]
      constructor
      · intro h
        rw [hM] at h
        rw [List.foldl_cons, hstep]
        exact (ih b).1 h
      · intro h
        rw [hM] at h
        rw [hM, List.foldl_cons, hstep, hfil]
        exact (ih b).2 h

/-- C9: the keyword-fallback classification returns confidence
min(0.9, best_count * 0.2) when some keyword of an eligible category
matched and 0.3 otherwise, a deterministic rationale stating the match
count, and — when the best count is positive — the category selected is
the first eligible keyword-table entry attaining the maximum count (ties
favour the earlier entry), resolved through the category table. -/
theorem c9_fallback_classification_spec (cats : List (String × CategoryInfo))
    (request : String) (hne : cats ≠ []) :
    (fallbackKeywordClassification cats request).map
        ClassificationResult.confidence =
      .ok (if 0 < specBestScore cats request
        then min (9 / 10) ((specBestScore cats request : ℚ) * (2 / 10))
        else 3 / 10) ∧
    (fallbackKeywordClassification cats request).map
        ClassificationResult.reasoning =
      .ok ("Classified based on keyword matching (score: " ++
        toString (specBestScore cats request) ++ ")") ∧
    (0 < specBestScore cats request →
      ∃ p info, (keywordMapping.filter (specEligible cats)).find?
          (fun q => specScore request q == specBestScore cats request) =
            some p ∧
        cats.lookup p.1 = some info ∧
        (fallbackKeywordClassification cats request).map
          ClassificationResult.category = .ok info.enum) := by
  simp only [specBestScore]
  by_cases hB : 0 < specMaxScore cats request keywordMapping
  · obtain ⟨p, hp1, hp2⟩ :=
      (fallbackFold_spec cats request keywordMapping ("General Inquiry", 0)).2
        (by simpa using hB)
    have helig : (cats.lookup p.1).isSome = true :=
      (List.mem_filter.mp (List.mem_of_find?_eq_some hp1)).2
    obtain ⟨info, hinfo⟩ := Option.isSome_iff_exists.mp helig
    simp only [fallbackKeywordClassification]
    rw [hp2]
    dsimp only
    rw [hinfo]
    refine ⟨by simp [Except.map], by simp [Except.map], fun _ => ?_⟩
    exact ⟨p, info, hp1, hinfo, by simp [Except.map]⟩
  · have h0 : specMaxScore cats request keywordMapping = 0 := by omega
    have hfold :=
      (fallbackFold_spec cats request keywordMapping ("General Inquiry", 0)).1
        (by rw [h0])
    simp only [fallbackKeywordClassification]
    rw [hfold, h0]
    dsimp only
    cases hlk : cats.lookup "General Inquiry" with
    | some info => simp [Except.map]
    | none =>
      cases hh : cats.head? with
      | none => exact absurd (List.head?_eq_none_iff.mp hh) hne
      | some pr => simp [Except.map]

/-- C9 witness: the confidence conjunct of the theorem at the default
table and the spec's example request. -/
theorem c9_witness :
    (fallbackKeywordClassification defaultCategories
        "I forgot my password and can't log in").map
        ClassificationResult.confidence =
      .ok (if 0 < specBestScore defaultCategories
            "I forgot my password and can't log in"
        then min (9 / 10) ((specBestScore defaultCategories
            "I forgot my password and can't log in" : ℚ) * (2 / 10))
        else 3 / 10) :=
  (c9_fallback_classification_spec defaultCategories
    "I forgot my password and can't log in"
    (by simp [defaultCategories])).1
